import Mathlib

/-!
Verification of the UTM (Universal Trust Model) trust meter and the
trust-gated IPD strategies built on it.

The development shallowly embeds the repository's Python code:

* `payoff_to_signed_reward`, `TrustMeter` (fields `theta`, `alpha_pos`,
  `alpha_neg`, `delta`, `_betrayals`, `_trust`), `TrustMeter.observe`,
  `TrustMeter.reset` from `utm/trust_meter.py`;
* the strategy classes `UTMTFT` (`strategies/utm_tft.py`), `UTMWSLS`
  (`strategies/utm_wsls.py`) and the hybrid `UTMTFT_WSLS`
  (`strategies/utm_tft_wsls.py`).

Python floats are modelled as rationals (`ℚ`); decimal literals such as
`0.05` become the corresponding rationals (`1/20`).  A Python method that
mutates `self` and may raise becomes a function returning the post-call
state paired with an optional raised message (`TrustMeter × Option String`):
in `observe` the raise happens before any field assignment, so on an error
the returned state is the pre-call state.  `payoff_to_signed_reward`, which
raises `ValueError` on a bad move pair, returns `Except String ℚ`.

The inner Axelrod policies (`axl.TitForTat`, `axl.WinStayLoseShift`) are
external library code; a strategy's call `self.inner.strategy(opponent)` is
modelled by passing the inner policy's proposed move as an oracle argument,
which is all the gated strategies inspect.
-/

/-- A move of one Iterated-Prisoner-Dilemma round: cooperate or defect.
In the Python code moves are Axelrod `Action` values whose `str()` is
`"C"` or `"D"`. -/
inductive Move where
  | C
  | D
  deriving DecidableEq, Repr

/-- The string form of a move, as `str(action)` produces in Python. -/
def Move.str : Move → String
  | Move.C => "C"
  | Move.D => "D"

/-- `ALPHA_POS` from `utm/trust_meter.py` (0.05). -/
def ALPHA_POS : ℚ := 1/20

/-- `ALPHA_NEG` from `utm/trust_meter.py` (0.50). -/
def ALPHA_NEG : ℚ := 1/2

/-- `DELTA` from `utm/trust_meter.py` (0.30). -/
def DELTA : ℚ := 3/10

/-- `payoff_to_signed_reward` from `utm/trust_meter.py`: the `_REWARD_TABLE`
lookup on the string pair, raising `ValueError "move must be 'C' or 'D'"`
(modelled as `Except.error`) on a `KeyError`.  The four table entries are
`("C","C") ↦ 1.0`, `("D","C") ↦ 0.5`, `("D","D") ↦ -0.2`, `("C","D") ↦ -1.0`. -/
def payoff_to_signed_reward (my_move opp_move : String) : Except String ℚ :=
  if my_move = "C" ∧ opp_move = "C" then Except.ok 1
  else if my_move = "D" ∧ opp_move = "C" then Except.ok (1/2)
  else if my_move = "D" ∧ opp_move = "D" then Except.ok (-1/5)
  else if my_move = "C" ∧ opp_move = "D" then Except.ok (-1)
  else Except.error "move must be 'C' or 'D'"

/-- The reward table restricted to genuine moves (the values
`payoff_to_signed_reward` returns on the four valid string pairs). -/
def rewardOf : Move → Move → ℚ
  | Move.C, Move.C => 1
  | Move.D, Move.C => 1/2
  | Move.D, Move.D => -1/5
  | Move.C, Move.D => -1

/-- The state of `TrustMeter` (`utm/trust_meter.py`): the dataclass fields
`theta`, `alpha_pos`, `alpha_neg`, `delta`, `_betrayals` (here `betrayals`)
and `_trust` (here `trust`). -/
structure TrustMeter where
  theta : ℚ
  alpha_pos : ℚ
  alpha_neg : ℚ
  delta : ℚ
  betrayals : ℕ
  trust : ℚ
  deriving DecidableEq, Repr

/-- Construction of a `TrustMeter(theta, alpha_pos, alpha_neg, delta)`:
`__post_init__` sets `_trust = theta` (no clamping, no validation) and the
dataclass default gives `_betrayals = 0`. -/
def TrustMeter.init (theta alpha_pos alpha_neg delta : ℚ) : TrustMeter :=
  ⟨theta, alpha_pos, alpha_neg, delta, 0, theta⟩

/-- `max(0.0, min(1.0, x))`, the clamp used on line 189 of
`utm/trust_meter.py`. -/
def clamp01 (x : ℚ) : ℚ := max 0 (min 1 x)

/-- Line 181: `alpha = self.alpha_pos if reward > self._trust else self.alpha_neg`. -/
def TrustMeter.alphaFor (tm : TrustMeter) (reward : ℚ) : ℚ :=
  if reward > tm.trust then tm.alpha_pos else tm.alpha_neg

/-- Lines 184-185: the betrayal counter after the bump
`if reward < self._trust: self._betrayals += 1`. -/
def TrustMeter.betrayalsAfter (tm : TrustMeter) (reward : ℚ) : ℕ :=
  if reward < tm.trust then tm.betrayals + 1 else tm.betrayals

/-- Line 187: `factor = severity * (1 + self._betrayals * self.delta)`,
evaluated after the betrayal bump. -/
def TrustMeter.factor (tm : TrustMeter) (reward severity : ℚ) : ℚ :=
  severity * (1 + (tm.betrayalsAfter reward : ℚ) * tm.delta)

/-- Line 188: `delta_t = alpha * factor * (reward - self._trust)`. -/
def TrustMeter.delta_t (tm : TrustMeter) (reward severity : ℚ) : ℚ :=
  tm.alphaFor reward * tm.factor reward severity * (reward - tm.trust)

/-- `TrustMeter.observe(reward, severity)` (lines 161-189): raise
`ValueError "reward must be non-zero"` when `reward == 0` (before any state
change), otherwise bump the betrayal counter when `reward < trust`, apply
the amplified update and clamp the new trust to `[0, 1]`.  The result is the
post-call state paired with the raised message, if any. -/
def TrustMeter.observe (tm : TrustMeter) (reward : ℚ) (severity : ℚ) :
    TrustMeter × Option String :=
  if reward = 0 then (tm, some "reward must be non-zero")
  else
    ({ tm with
        betrayals := tm.betrayalsAfter reward,
        trust := clamp01 (tm.trust + tm.delta_t reward severity) }, none)

/-- `TrustMeter.reset()` (lines 202-205): `_trust = theta`, `_betrayals = 0`. -/
def TrustMeter.reset (tm : TrustMeter) : TrustMeter :=
  { tm with trust := tm.theta, betrayals := 0 }

/-- A strictly sequential run of `observe` calls, stopping at (and
reporting) the first raise.  Used to state trajectory-level properties. -/
def TrustMeter.observeAll (tm : TrustMeter) (events : List (ℚ × ℚ)) :
    TrustMeter × Option String :=
  match events with
  | [] => (tm, none)
  | (r, s) :: rest =>
    match tm.observe r s with
    | (tm1, none) => tm1.observeAll rest
    | (tm1, some e) => (tm1, some e)

/-- The state of `UTMTFT` (`strategies/utm_tft.py`) that its `strategy`
method reads: the owned `TrustMeter` and the override `threshold`. -/
structure UTMTFT where
  trust : TrustMeter
  threshold : ℚ
  deriving DecidableEq, Repr

/-- `UTMTFT.__init__(theta, alpha_pos, alpha_neg, delta, threshold)`. -/
def UTMTFT.init (theta alpha_pos alpha_neg delta threshold : ℚ) : UTMTFT :=
  ⟨TrustMeter.init theta alpha_pos alpha_neg delta, threshold⟩

/-- `UTMTFT.strategy(opponent)` (lines 139-197).  `rounds` is the match so
far, most recent round last; a round pairs this player's move with the
opponent's.  `proposed` is the inner `TitForTat`'s suggestion
(`self.inner.strategy(opponent)`).  When the history is non-empty the trust
meter observes `payoff_to_signed_reward` of the previous round (default
severity 1.0); then the move is `D` when trust is strictly below the
threshold, else the proposed move.  A raise propagates as `Except.error`. -/
def UTMTFT.strategy (p : UTMTFT) (rounds : List (Move × Move)) (proposed : Move) :
    Except String (Move × UTMTFT) :=
  match rounds.getLast? with
  | none =>
    Except.ok ((if p.trust.trust < p.threshold then Move.D else proposed), p)
  | some (last_my, last_opp) =>
    match payoff_to_signed_reward last_my.str last_opp.str with
    | Except.error e => Except.error e
    | Except.ok reward =>
      match p.trust.observe reward 1 with
      | (tm1, none) =>
        Except.ok ((if tm1.trust < p.threshold then Move.D else proposed),
          { p with trust := tm1 })
      | (_, some e) => Except.error e

/-- `UTMTFT.reset()` (lines 202-207): resets the trust meter (the inner
`TitForTat` is stateless in this embedding). -/
def UTMTFT.reset (p : UTMTFT) : UTMTFT :=
  { p with trust := p.trust.reset }

/-- The state of `UTMWSLS` (`strategies/utm_wsls.py`) that its `strategy`
method reads. -/
structure UTMWSLS where
  trust : TrustMeter
  threshold : ℚ
  deriving DecidableEq, Repr

/-- `UTMWSLS.__init__(theta, alpha_pos, alpha_neg, delta, threshold)`. -/
def UTMWSLS.init (theta alpha_pos alpha_neg delta threshold : ℚ) : UTMWSLS :=
  ⟨TrustMeter.init theta alpha_pos alpha_neg delta, threshold⟩

/-- `UTMWSLS.strategy(opponent)` (lines 71-81): identical control flow to
`UTMTFT.strategy`, with the inner `WinStayLoseShift`'s suggestion passed as
`proposed`. -/
def UTMWSLS.strategy (p : UTMWSLS) (rounds : List (Move × Move)) (proposed : Move) :
    Except String (Move × UTMWSLS) :=
  match rounds.getLast? with
  | none =>
    Except.ok ((if p.trust.trust < p.threshold then Move.D else proposed), p)
  | some (last_my, last_opp) =>
    match payoff_to_signed_reward last_my.str last_opp.str with
    | Except.error e => Except.error e
    | Except.ok reward =>
      match p.trust.observe reward 1 with
      | (tm1, none) =>
        Except.ok ((if tm1.trust < p.threshold then Move.D else proposed),
          { p with trust := tm1 })
      | (_, some e) => Except.error e

/-- The two inner engines the hybrid `UTMTFT_WSLS` can hold:
`axl.TitForTat` (cautious phase) or `axl.WinStayLoseShift` (graduated). -/
inductive InnerPolicy where
  | TFT
  | WSLS
  deriving DecidableEq, Repr

/-- The state of `UTMTFT_WSLS` (`strategies/utm_tft_wsls.py`): trust meter,
override threshold, promotion threshold and the currently active inner
engine (`self.inner`). -/
structure UTMTFT_WSLS where
  trust : TrustMeter
  threshold : ℚ
  promote_at : ℚ
  inner : InnerPolicy
  deriving DecidableEq, Repr

/-- `UTMTFT_WSLS.__init__(theta, alpha_pos, alpha_neg, delta, threshold,
promote_at)`: starts cautious, `self.inner = axl.TitForTat()`. -/
def UTMTFT_WSLS.init (theta alpha_pos alpha_neg delta threshold promote_at : ℚ) :
    UTMTFT_WSLS :=
  ⟨TrustMeter.init theta alpha_pos alpha_neg delta, threshold, promote_at,
    InnerPolicy.TFT⟩

/-- Lines 56-58 of `utm_tft_wsls.py`: when the history is non-empty, observe
the previous round's mapped reward (default severity 1.0). -/
def UTMTFT_WSLS.observePrev (p : UTMTFT_WSLS) (rounds : List (Move × Move)) :
    Except String UTMTFT_WSLS :=
  match rounds.getLast? with
  | none => Except.ok p
  | some (last_my, last_opp) =>
    match payoff_to_signed_reward last_my.str last_opp.str with
    | Except.error e => Except.error e
    | Except.ok r =>
      match p.trust.observe r 1 with
      | (tm1, none) => Except.ok { p with trust := tm1 }
      | (_, some e) => Except.error e

/-- Lines 61-63: `if self.trust.value > self.promote_at and not
isinstance(self.inner, axl.WinStayLoseShift): self.inner =
axl.WinStayLoseShift()`. -/
def UTMTFT_WSLS.promote (p : UTMTFT_WSLS) : UTMTFT_WSLS :=
  if p.trust.trust > p.promote_at ∧ p.inner ≠ InnerPolicy.WSLS then
    { p with inner := InnerPolicy.WSLS }
  else p

/-- `UTMTFT_WSLS.strategy(opponent)` (lines 55-68): observe the previous
round if any, possibly promote the inner engine, ask the active inner engine
(`propose`) for a move, and override with `D` when trust is strictly below
the threshold. -/
def UTMTFT_WSLS.strategy (p : UTMTFT_WSLS) (rounds : List (Move × Move))
    (propose : InnerPolicy → Move) : Except String (Move × UTMTFT_WSLS) :=
  match p.observePrev rounds with
  | Except.error e => Except.error e
  | Except.ok p1 =>
    let p2 := p1.promote
    let move := propose p2.inner
    Except.ok ((if p2.trust.trust < p2.threshold then Move.D else move), p2)

/-- `UTMTFT_WSLS.reset()` (lines 70-73): reset the trust meter and fall back
to the cautious inner engine `axl.TitForTat()`. -/
def UTMTFT_WSLS.reset (p : UTMTFT_WSLS) : UTMTFT_WSLS :=
  { p with trust := p.trust.reset, inner := InnerPolicy.TFT }

/-- Concrete meter for the escalation analysis: the module defaults
`TrustMeter(0.5, 0.05, 0.5, 0.3)`. -/
def escTm0 : TrustMeter := TrustMeter.init (1/2) (1/20) (1/2) (3/10)

/-- `escTm0` after `observe(-0.2)` (mutual defection): betrayal counted,
trust `1/2 - (1/2)(13/10)(7/10) = 9/200`. -/
def escTm1 : TrustMeter := ⟨1/2, 1/20, 1/2, 3/10, 1, 9/200⟩

/-- `escTm1` after a second `observe(-0.2)`: trust clamps to 0. -/
def escTm2 : TrustMeter := ⟨1/2, 1/20, 1/2, 3/10, 2, 0⟩

/-- Concrete meter for the betrayal-counter witness. -/
def c7tm : TrustMeter := TrustMeter.init (1/2) (1/20) (1/2) (3/10)

/-- `c7tm` after `observe(-1)`: betrayal counted, trust clamps to 0. -/
def c7tm1 : TrustMeter := ⟨1/2, 1/20, 1/2, 3/10, 1, 0⟩

/-- A `TrustMeter` whose configuration the directionality claim accepts
(`alpha_pos = 0 ∈ [0,1]`) but on which `observe(1.0)` does not move trust. -/
def c8bad : TrustMeter := TrustMeter.init (1/2) 0 (1/2) (3/10)

/-- A default-parameter meter satisfying the strengthened directionality
hypotheses. -/
def c8good : TrustMeter := TrustMeter.init (1/2) (1/20) (1/2) (3/10)

/-- A meter constructed with the out-of-range baseline `theta = 2`:
construction does not validate, so its trust starts at 2. -/
def c9tm : TrustMeter := TrustMeter.init 2 (1/20) (1/2) (3/10)

/-- An in-range meter for the severity-zero witness. -/
def c9tmGood : TrustMeter := TrustMeter.init (1/2) (1/20) (1/2) (3/10)

/-- A concrete `UTMTFT` instance (the constructor defaults of
`utm_tft.py`). -/
def c2p : UTMTFT := UTMTFT.init (9/20) (1/20) (1/2) (3/5) (9/20)

/-- A concrete `UTMWSLS` instance (the constructor defaults of
`utm_wsls.py`). -/
def c2q : UTMWSLS := UTMWSLS.init (9/20) (1/20) (1/2) (11/20) (9/20)

/-- A concrete hybrid instance (the constructor defaults of
`utm_tft_wsls.py`). -/
def hybP : UTMTFT_WSLS := UTMTFT_WSLS.init (9/20) (1/20) (1/2) (11/20) (9/20) (11/20)

/-- The mapped reward of a genuine move pair: `payoff_to_signed_reward` on
the moves' string forms returns `rewardOf`. -/
theorem payoff_moves (m o : Move) :
    payoff_to_signed_reward m.str o.str = Except.ok (rewardOf m o) := by
  cases m <;> cases o <;> simp [payoff_to_signed_reward, Move.str, rewardOf]

/-- Every table reward is non-zero, so `observe` never raises on it. -/
theorem rewardOf_ne_zero (m o : Move) : rewardOf m o ≠ 0 := by
  cases m <;> cases o <;> norm_num [rewardOf]

/-- Successful `observe`: on a non-zero reward the call does not raise and
produces the bumped counter and the clamped updated trust. -/
theorem observe_ok (tm : TrustMeter) {r : ℚ} (s : ℚ) (h : r ≠ 0) :
    tm.observe r s =
      ({ tm with
          betrayals := tm.betrayalsAfter r,
          trust := clamp01 (tm.trust + tm.delta_t r s) }, none) := by
  rw [TrustMeter.observe, if_neg h]

/-- An `observe` call that did not raise had a non-zero reward. -/
theorem observe_ne_zero {tm tm1 : TrustMeter} {r s : ℚ}
    (h : tm.observe r s = (tm1, none)) : r ≠ 0 := by
  intro h0
  subst h0
  rw [TrustMeter.observe, if_pos rfl] at h
  exact Option.noConfusion (congrArg Prod.snd h)

/-- The state a successful `observe` call produced. -/
theorem observe_elim {tm tm1 : TrustMeter} {r s : ℚ}
    (h : tm.observe r s = (tm1, none)) :
    tm1 = { tm with
        betrayals := tm.betrayalsAfter r,
        trust := clamp01 (tm.trust + tm.delta_t r s) } := by
  rw [observe_ok tm s (observe_ne_zero h)] at h
  exact (congrArg Prod.fst h).symm

theorem clamp01_nonneg (x : ℚ) : 0 ≤ clamp01 x := le_max_left 0 _

theorem clamp01_le_one (x : ℚ) : clamp01 x ≤ 1 :=
  max_le (by norm_num) (min_le_left 1 x)

theorem clamp01_eq_self {x : ℚ} (h0 : 0 ≤ x) (h1 : x ≤ 1) : clamp01 x = x := by
  rw [clamp01, min_eq_right h1, max_eq_right h0]

theorem lt_clamp01 {c x : ℚ} (hc : c < 1) (hx : c < x) : c < clamp01 x := by
  rw [clamp01]
  exact lt_max_iff.mpr (Or.inr (lt_min hc hx))

theorem clamp01_lt {c x : ℚ} (hc : 0 < c) (hx : x < c) : clamp01 x < c := by
  rw [clamp01]
  exact max_lt hc (lt_of_le_of_lt (min_le_right 1 x) hx)

/-- Along any run of `observe` calls with non-zero rewards, starting from a
trust in `[0, 1]`, no call raises and trust stays in `[0, 1]`. -/
theorem observeAll_bounded (events : List (ℚ × ℚ)) (tm : TrustMeter)
    (h0 : 0 ≤ tm.trust) (h1 : tm.trust ≤ 1)
    (hne : ∀ e ∈ events, e.1 ≠ 0) :
    (tm.observeAll events).2 = none ∧ 0 ≤ (tm.observeAll events).1.trust ∧
      (tm.observeAll events).1.trust ≤ 1 := by
  induction events generalizing tm with
  | nil => exact ⟨rfl, h0, h1⟩
  | cons e rest ih =>
    obtain ⟨r, s⟩ := e
    have hr : r ≠ 0 := hne (r, s) (List.mem_cons_self _ _)
    rw [TrustMeter.observeAll, observe_ok tm s hr]
    exact ih _ (clamp01_nonneg _) (clamp01_le_one _)
      (fun e he => hne e (List.mem_cons_of_mem _ he))

/-- C1: for every `TrustMeter` constructed with a baseline `theta` in
`[0, 1]` and every finite sequence of `observe` calls with non-zero rewards
(any severities), no call raises and after every call (equivalently, after
every prefix of the sequence, each prefix being itself such a sequence)
`value()` lies in the closed interval `[0, 1]`. -/
theorem C1_trust_bounded (theta alpha_pos alpha_neg delta : ℚ)
    (h0 : 0 ≤ theta) (h1 : theta ≤ 1) (events : List (ℚ × ℚ))
    (hne : ∀ e ∈ events, e.1 ≠ 0) :
    ((TrustMeter.init theta alpha_pos alpha_neg delta).observeAll events).2 = none ∧
      0 ≤ ((TrustMeter.init theta alpha_pos alpha_neg delta).observeAll events).1.trust ∧
      ((TrustMeter.init theta alpha_pos alpha_neg delta).observeAll events).1.trust ≤ 1 :=
  observeAll_bounded events _ h0 h1 hne

/-- Witness for C1 at `theta = 1/2`, the default rates and one
`observe(1.0, 1.0)` call. -/
theorem C1_trust_bounded_witness :
    ((TrustMeter.init (1/2) (1/20) (1/2) (3/10)).observeAll [(1, 1)]).2 = none ∧
      0 ≤ ((TrustMeter.init (1/2) (1/20) (1/2) (3/10)).observeAll [(1, 1)]).1.trust ∧
      ((TrustMeter.init (1/2) (1/20) (1/2) (3/10)).observeAll [(1, 1)]).1.trust ≤ 1 :=
  C1_trust_bounded (1/2) (1/20) (1/2) (3/10) (by norm_num) (by norm_num) [(1, 1)]
    (by intro e he; rw [List.mem_singleton] at he; subst he; norm_num)

/-- The non-empty-history branch of `UTMTFT.strategy`: one `observe` of the
previous round's mapped reward, then the threshold gate on post-update
trust. -/
theorem strat_last (p : UTMTFT) (rounds : List (Move × Move)) (m o proposed : Move)
    (hl : rounds.getLast? = some (m, o)) :
    p.strategy rounds proposed =
      Except.ok ((if (p.trust.observe (rewardOf m o) 1).1.trust < p.threshold
          then Move.D else proposed),
        { p with trust := (p.trust.observe (rewardOf m o) 1).1 }) := by
  rw [UTMTFT.strategy, hl]
  simp only [payoff_moves, observe_ok p.trust 1 (rewardOf_ne_zero m o)]

/-- The non-empty-history branch of `UTMWSLS.strategy` (same control flow
as `UTMTFT.strategy`). -/
theorem wsls_strat_last (p : UTMWSLS) (rounds : List (Move × Move)) (m o proposed : Move)
    (hl : rounds.getLast? = some (m, o)) :
    p.strategy rounds proposed =
      Except.ok ((if (p.trust.observe (rewardOf m o) 1).1.trust < p.threshold
          then Move.D else proposed),
        { p with trust := (p.trust.observe (rewardOf m o) 1).1 }) := by
  rw [UTMWSLS.strategy, hl]
  simp only [payoff_moves, observe_ok p.trust 1 (rewardOf_ne_zero m o)]

/-- C2: for `UTMTFT` and `UTMWSLS`, a `strategy` call with empty history
performs no estimator update (the state is returned unchanged) and gates
the inner policy's proposal on the current trust; with non-empty history it
performs exactly one update, with the mapped reward of the previous round's
(own move, opponent move) pair at default severity, and the returned move
is Defect exactly when the post-update trust is strictly below the
threshold, else the inner policy's proposed move. -/
theorem C2_gated_step :
    (∀ (p : UTMTFT) (proposed : Move),
      p.strategy [] proposed =
        Except.ok ((if p.trust.trust < p.threshold then Move.D else proposed), p)) ∧
      (∀ (p : UTMTFT) (rounds : List (Move × Move)) (m o proposed : Move),
        rounds.getLast? = some (m, o) →
        (p.trust.observe (rewardOf m o) 1).2 = none ∧
          p.strategy rounds proposed =
            Except.ok ((if (p.trust.observe (rewardOf m o) 1).1.trust < p.threshold
                then Move.D else proposed),
              { p with trust := (p.trust.observe (rewardOf m o) 1).1 })) ∧
      (∀ (q : UTMWSLS) (proposed : Move),
        q.strategy [] proposed =
          Except.ok ((if q.trust.trust < q.threshold then Move.D else proposed), q)) ∧
      (∀ (q : UTMWSLS) (rounds : List (Move × Move)) (m o proposed : Move),
        rounds.getLast? = some (m, o) →
        (q.trust.observe (rewardOf m o) 1).2 = none ∧
          q.strategy rounds proposed =
            Except.ok ((if (q.trust.observe (rewardOf m o) 1).1.trust < q.threshold
                then Move.D else proposed),
              { q with trust := (q.trust.observe (rewardOf m o) 1).1 })) := by
  refine ⟨fun p proposed => rfl, ?_, fun q proposed => rfl, ?_⟩
  · intro p rounds m o proposed hl
    refine ⟨?_, strat_last p rounds m o proposed hl⟩
    rw [observe_ok p.trust 1 (rewardOf_ne_zero m o)]
  · intro q rounds m o proposed hl
    refine ⟨?_, wsls_strat_last q rounds m o proposed hl⟩
    rw [observe_ok q.trust 1 (rewardOf_ne_zero m o)]

/-- Witness for C2: the default `UTMTFT` after one (C, D) round. -/
theorem C2_gated_step_witness :
    (c2p.trust.observe (rewardOf Move.C Move.D) 1).2 = none ∧
      c2p.strategy [(Move.C, Move.D)] Move.C =
        Except.ok ((if (c2p.trust.observe (rewardOf Move.C Move.D) 1).1.trust < c2p.threshold
            then Move.D else Move.C),
          { c2p with trust := (c2p.trust.observe (rewardOf Move.C Move.D) 1).1 }) :=
  C2_gated_step.2.1 c2p [(Move.C, Move.D)] Move.C Move.D Move.C rfl

/-- First escalation step: the default meter observing mutual defection
(reward `-0.2`), a negative surprise, drops trust from `1/2` to `9/200`. -/
theorem escStep1 : escTm0.observe (-1/5) 1 = (escTm1, none) := by
  norm_num [TrustMeter.observe, TrustMeter.betrayalsAfter, TrustMeter.delta_t,
    TrustMeter.factor, TrustMeter.alphaFor, clamp01, escTm0, escTm1, TrustMeter.init]

/-- Second escalation step: the same reward and severity again, another
negative surprise; trust clamps at `0`. -/
theorem escStep2 : escTm1.observe (-1/5) 1 = (escTm2, none) := by
  norm_num [TrustMeter.observe, TrustMeter.betrayalsAfter, TrustMeter.delta_t,
    TrustMeter.factor, TrustMeter.alphaFor, clamp01, escTm1, escTm2]

/-- C3 counterexample: two successive negative-surprise `observe` calls with
identical reward `-0.2` and identical severity `1.0` on the default meter
`TrustMeter(0.5, 0.05, 0.5, 0.3)`.  The first call decreases trust by
`91/200 = 0.455`, the second by only `9/200 = 0.045`: the second magnitude
is strictly smaller, not larger, because the surprise gap
`reward - trust` shrank. -/
theorem C3_escalation_counterexample :
    (-1/5 : ℚ) < escTm0.trust ∧ escTm0.observe (-1/5) 1 = (escTm1, none) ∧
      (-1/5 : ℚ) < escTm1.trust ∧ escTm1.observe (-1/5) 1 = (escTm2, none) ∧
      ¬ (escTm0.trust - escTm1.trust < escTm1.trust - escTm2.trust) :=
  ⟨by norm_num [escTm0, TrustMeter.init], escStep1,
    by norm_num [escTm1], escStep2,
    by norm_num [escTm0, escTm1, escTm2, TrustMeter.init]⟩

/-- C3 (amended): for two successive negative-surprise `observe` calls with
identical reward and identical severity, with positive severity and
positive `delta`, the amplification factor applied by the second call is
strictly larger than the first's (the betrayal counter increased); the
magnitude of the trust decrease itself need not be larger. -/
theorem C3_escalation_amended (tm : TrustMeter) (r s : ℚ) (tm1 : TrustMeter)
    (hneg1 : r < tm.trust) (hobs : tm.observe r s = (tm1, none))
    (hneg2 : r < tm1.trust) (hs : 0 < s) (hd : 0 < tm.delta) :
    tm.factor r s < tm1.factor r s := by
  have h1 := observe_elim hobs
  have hb : tm1.betrayals = tm.betrayals + 1 := by
    rw [h1]
    show tm.betrayalsAfter r = tm.betrayals + 1
    rw [TrustMeter.betrayalsAfter, if_pos hneg1]
  have hdelta : tm1.delta = tm.delta := by rw [h1]
  simp only [TrustMeter.factor, TrustMeter.betrayalsAfter]
  rw [if_pos hneg1, if_pos hneg2, hb, hdelta]
  push_cast
  nlinarith [mul_pos hs hd]

/-- Witness for C3 (amended) at the concrete escalation scenario. -/
theorem C3_escalation_amended_witness :
    (-1/5 : ℚ) < escTm0.trust ∧ (-1/5 : ℚ) < escTm1.trust ∧ (0 : ℚ) < 1 ∧
      0 < escTm0.delta ∧ escTm0.factor (-1/5) 1 < escTm1.factor (-1/5) 1 :=
  ⟨by norm_num [escTm0, TrustMeter.init], by norm_num [escTm1], by norm_num,
    by norm_num [escTm0, TrustMeter.init],
    C3_escalation_amended escTm0 (-1/5) 1 escTm1
      (by norm_num [escTm0, TrustMeter.init]) escStep1
      (by norm_num [escTm1]) (by norm_num)
      (by norm_num [escTm0, TrustMeter.init])⟩

/-- C4: `observe(0.0, severity)` fails with the `InvalidArgument` raise
`"reward must be non-zero"` for every state and every severity, and the
post-call state equals the pre-call state (the raise precedes every field
assignment), so trust and the betrayal counter are unchanged. -/
theorem C4_zero_reward_rejected (tm : TrustMeter) (severity : ℚ) :
    tm.observe 0 severity = (tm, some "reward must be non-zero") := by
  rw [TrustMeter.observe, if_pos rfl]

/-- The empty-history branch of the hybrid's pre-move observation. -/
theorem observePrev_nil (p : UTMTFT_WSLS) : p.observePrev [] = Except.ok p := rfl

/-- The non-empty-history branch of the hybrid's pre-move observation. -/
theorem observePrev_last (p : UTMTFT_WSLS) (rounds : List (Move × Move)) (m o : Move)
    (hl : rounds.getLast? = some (m, o)) :
    p.observePrev rounds =
      Except.ok { p with trust := (p.trust.observe (rewardOf m o) 1).1 } := by
  rw [UTMTFT_WSLS.observePrev, hl]
  simp only [payoff_moves, observe_ok p.trust 1 (rewardOf_ne_zero m o)]

/-- A successful pre-move observation changes only the trust meter: the
inner engine and both thresholds are untouched. -/
theorem observePrev_ok {p p1 : UTMTFT_WSLS} {rounds : List (Move × Move)}
    (h : p.observePrev rounds = Except.ok p1) :
    p1.inner = p.inner ∧ p1.promote_at = p.promote_at ∧ p1.threshold = p.threshold := by
  cases hl : rounds.getLast? with
  | none =>
    rw [UTMTFT_WSLS.observePrev, hl] at h
    injection h with h2
    subst h2
    exact ⟨rfl, rfl, rfl⟩
  | some lastRound =>
    obtain ⟨a, b⟩ := lastRound
    rw [observePrev_last p rounds a b hl] at h
    injection h with h2
    subst h2
    exact ⟨rfl, rfl, rfl⟩

/-- The promotion step flips the inner engine to `WSLS` exactly when it was
already `WSLS` or the current trust strictly exceeds `promote_at`. -/
theorem promote_inner (p : UTMTFT_WSLS) :
    p.promote.inner = InnerPolicy.WSLS ↔
      (p.inner = InnerPolicy.WSLS ∨ p.trust.trust > p.promote_at) := by
  rw [UTMTFT_WSLS.promote]
  by_cases h : p.trust.trust > p.promote_at ∧ p.inner ≠ InnerPolicy.WSLS
  · rw [if_pos h]
    simp [h.1]
  · rw [if_neg h]
    constructor
    · exact fun hw => Or.inl hw
    · rintro (hw | hgt)
      · exact hw
      · by_contra hne
        exact h ⟨hgt, hne⟩

/-- The promotion step changes nothing but the inner engine. -/
theorem promote_frame (p : UTMTFT_WSLS) :
    p.promote.trust = p.trust ∧ p.promote.promote_at = p.promote_at ∧
      p.promote.threshold = p.threshold := by
  rw [UTMTFT_WSLS.promote]
  by_cases h : p.trust.trust > p.promote_at ∧ p.inner ≠ InnerPolicy.WSLS
  · rw [if_pos h]
    exact ⟨rfl, rfl, rfl⟩
  · rw [if_neg h]
    exact ⟨rfl, rfl, rfl⟩

/-- A successful hybrid `strategy` call factors as a pre-move observation
followed by the promotion step. -/
theorem strategy_state {p p1 : UTMTFT_WSLS} {rounds : List (Move × Move)}
    {propose : InnerPolicy → Move} {m : Move}
    (h : p.strategy rounds propose = Except.ok (m, p1)) :
    ∃ p0, p.observePrev rounds = Except.ok p0 ∧ p1 = p0.promote := by
  rw [UTMTFT_WSLS.strategy] at h
  cases hp : p.observePrev rounds with
  | error e =>
    rw [hp] at h
    exact Except.noConfusion (show Except.error e = Except.ok (m, p1) from h)
  | ok p0 =>
    rw [hp] at h
    have h2 : ((if p0.promote.trust.trust < p0.promote.threshold then Move.D
        else propose p0.promote.inner), p0.promote) = (m, p1) := by
      injection h
    exact ⟨p0, rfl, (congrArg Prod.snd h2).symm⟩

/-- C5: within a match, a successful hybrid `strategy` call has its inner
engine equal to `WSLS` afterwards exactly when it already was `WSLS` or the
post-update trust strictly exceeds `promote_at` (so the switch fires on the
first call whose estimator value exceeds `promote_at`, and on no other);
once the inner engine is `WSLS` it stays `WSLS` (the change happens at most
once and is never undone); and `reset()` restores the cautious `TitForTat`
engine. -/
theorem C5_hybrid_promotion :
    (∀ (p : UTMTFT_WSLS) (rounds : List (Move × Move)) (propose : InnerPolicy → Move)
        (m : Move) (p1 : UTMTFT_WSLS),
      p.strategy rounds propose = Except.ok (m, p1) →
      (p1.inner = InnerPolicy.WSLS ↔
        (p.inner = InnerPolicy.WSLS ∨ p1.trust.trust > p.promote_at))) ∧
      (∀ (p : UTMTFT_WSLS) (rounds : List (Move × Move)) (propose : InnerPolicy → Move)
          (m : Move) (p1 : UTMTFT_WSLS),
        p.strategy rounds propose = Except.ok (m, p1) →
        p.inner = InnerPolicy.WSLS → p1.inner = InnerPolicy.WSLS) ∧
      (∀ p : UTMTFT_WSLS, p.reset.inner = InnerPolicy.TFT) := by
  refine ⟨?_, ?_, fun p => rfl⟩
  · intro p rounds propose m p1 h
    obtain ⟨p0, hp0, rfl⟩ := strategy_state h
    have hf := observePrev_ok hp0
    have htr := (promote_frame p0).1
    rw [promote_inner p0, hf.1, htr, hf.2.1]
  · intro p rounds propose m p1 h hw
    obtain ⟨p0, hp0, rfl⟩ := strategy_state h
    have hf := observePrev_ok hp0
    rw [promote_inner p0, hf.1]
    exact Or.inl hw

/-- Witness for C5: the default hybrid on its first round (empty history),
where no promotion fires. -/
theorem C5_hybrid_promotion_witness :
    hybP.strategy [] (fun _ => Move.C) = Except.ok (Move.C, hybP) ∧
      (hybP.inner = InnerPolicy.WSLS ↔
        (hybP.inner = InnerPolicy.WSLS ∨ hybP.trust.trust > hybP.promote_at)) :=
  ⟨by norm_num [UTMTFT_WSLS.strategy, UTMTFT_WSLS.observePrev, UTMTFT_WSLS.promote,
      hybP, UTMTFT_WSLS.init, TrustMeter.init],
    C5_hybrid_promotion.1 hybP [] (fun _ => Move.C) Move.C hybP
      (by norm_num [UTMTFT_WSLS.strategy, UTMTFT_WSLS.observePrev, UTMTFT_WSLS.promote,
        hybP, UTMTFT_WSLS.init, TrustMeter.init])⟩

/-- C6: `payoff_to_signed_reward` returns exactly `1.0` for (C, C), `0.5`
for (D, C), `-0.2` for (D, D) and `-1.0` for (C, D); every other string
pair fails with the `InvalidArgument` raise `"move must be 'C' or 'D'"`. -/
theorem C6_reward_table :
    payoff_to_signed_reward "C" "C" = Except.ok 1 ∧
      payoff_to_signed_reward "D" "C" = Except.ok (1/2) ∧
      payoff_to_signed_reward "D" "D" = Except.ok (-1/5) ∧
      payoff_to_signed_reward "C" "D" = Except.ok (-1) ∧
      ∀ my_move opp_move : String,
        (my_move, opp_move) ≠ ("C", "C") → (my_move, opp_move) ≠ ("D", "C") →
        (my_move, opp_move) ≠ ("D", "D") → (my_move, opp_move) ≠ ("C", "D") →
        payoff_to_signed_reward my_move opp_move =
          Except.error "move must be 'C' or 'D'" := by
  refine ⟨by simp [payoff_to_signed_reward], by simp [payoff_to_signed_reward],
    by simp [payoff_to_signed_reward], by simp [payoff_to_signed_reward], ?_⟩
  intro a b h1 h2 h3 h4
  have g1 : ¬(a = "C" ∧ b = "C") := by rintro ⟨rfl, rfl⟩; exact h1 rfl
  have g2 : ¬(a = "D" ∧ b = "C") := by rintro ⟨rfl, rfl⟩; exact h2 rfl
  have g3 : ¬(a = "D" ∧ b = "D") := by rintro ⟨rfl, rfl⟩; exact h3 rfl
  have g4 : ¬(a = "C" ∧ b = "D") := by rintro ⟨rfl, rfl⟩; exact h4 rfl
  rw [payoff_to_signed_reward, if_neg g1, if_neg g2, if_neg g3, if_neg g4]

/-- Witness for C6 at an invalid pair. -/
theorem C6_reward_table_witness :
    payoff_to_signed_reward "X" "C" = Except.error "move must be 'C' or 'D'" :=
  C6_reward_table.2.2.2.2 "X" "C" (by decide) (by decide) (by decide) (by decide)

/-- C7: the betrayal counter is `0` right after `reset()`; a successful
`observe` call leaves it unchanged or increments it by exactly `1`, the
increment occurring exactly when the reward is strictly below the trust
before the update; and the amplification factor applied in that same call
is computed from the already-incremented counter (the post-call
`betrayals`), so a just-incurred betrayal amplifies its own update. -/
theorem C7_betrayal_counter :
    (∀ tm : TrustMeter, tm.reset.betrayals = 0) ∧
      (∀ (tm : TrustMeter) (r s : ℚ) (tm1 : TrustMeter),
        tm.observe r s = (tm1, none) →
        (tm1.betrayals = if r < tm.trust then tm.betrayals + 1 else tm.betrayals) ∧
          tm.betrayals ≤ tm1.betrayals ∧
          tm1.trust = clamp01 (tm.trust +
            tm.alphaFor r * (s * (1 + (tm1.betrayals : ℚ) * tm.delta)) * (r - tm.trust))) := by
  refine ⟨fun tm => rfl, ?_⟩
  intro tm r s tm1 h
  have h1 := observe_elim h
  have hb : tm1.betrayals = tm.betrayalsAfter r := by rw [h1]
  refine ⟨?_, ?_, ?_⟩
  · rw [hb, TrustMeter.betrayalsAfter]
  · rw [hb, TrustMeter.betrayalsAfter]
    split
    · exact Nat.le_succ _
    · exact le_refl _
  · rw [h1]
    show clamp01 (tm.trust + tm.delta_t r s) =
      clamp01 (tm.trust +
        tm.alphaFor r * (s * (1 + (tm.betrayalsAfter r : ℚ) * tm.delta)) * (r - tm.trust))
    rw [TrustMeter.delta_t, TrustMeter.factor]

/-- Witness for C7: the default meter observing the betrayal reward `-1`. -/
theorem C7_betrayal_counter_witness :
    c7tm.observe (-1) 1 = (c7tm1, none) ∧
      (c7tm1.betrayals = if (-1 : ℚ) < c7tm.trust then c7tm.betrayals + 1 else c7tm.betrayals) ∧
      c7tm.betrayals ≤ c7tm1.betrayals ∧
      c7tm1.trust = clamp01 (c7tm.trust +
        c7tm.alphaFor (-1) * (1 * (1 + (c7tm1.betrayals : ℚ) * c7tm.delta)) * (-1 - c7tm.trust)) := by
  have hobs : c7tm.observe (-1) 1 = (c7tm1, none) := by
    norm_num [TrustMeter.observe, TrustMeter.betrayalsAfter, TrustMeter.delta_t,
      TrustMeter.factor, TrustMeter.alphaFor, clamp01, c7tm, c7tm1, TrustMeter.init]
  exact ⟨hobs, C7_betrayal_counter.2 c7tm (-1) 1 c7tm1 hobs⟩

/-- C8 counterexample: `alpha_pos = 0` lies in `[0, 1]`, and with it
`update(reward=1.0)` from `trust = 0.5` leaves trust exactly at `0.5`
instead of strictly increasing it. -/
theorem C8_directionality_counterexample :
    (0 : ℚ) ≤ c8bad.alpha_pos ∧ c8bad.alpha_pos ≤ 1 ∧ (0 : ℚ) ≤ c8bad.alpha_neg ∧
      c8bad.alpha_neg ≤ 1 ∧ (0 : ℚ) ≤ c8bad.delta ∧ c8bad.trust = 1/2 ∧
      (c8bad.observe 1 1).2 = none ∧ (c8bad.observe 1 1).1.trust = 1/2 := by
  norm_num [c8bad, TrustMeter.init, TrustMeter.observe, TrustMeter.betrayalsAfter,
    TrustMeter.delta_t, TrustMeter.factor, TrustMeter.alphaFor, clamp01]

/-- C8 (amended): with strictly positive learning rates (`alpha_pos` and
`alpha_neg` in `(0, 1]`) and `delta ≥ 0`, from `trust = 0.5` a default-severity
`observe(1.0)` strictly increases trust and `observe(-1.0)` strictly
decreases it. -/
theorem C8_directionality_amended (tm : TrustMeter)
    (hap : 0 < tm.alpha_pos) (hap1 : tm.alpha_pos ≤ 1)
    (han : 0 < tm.alpha_neg) (han1 : tm.alpha_neg ≤ 1)
    (hd : 0 ≤ tm.delta) (ht : tm.trust = 1/2) :
    1/2 < (tm.observe 1 1).1.trust ∧ (tm.observe (-1) 1).1.trust < 1/2 := by
  have hfac : ∀ r : ℚ, 0 < 1 * (1 + (tm.betrayalsAfter r : ℚ) * tm.delta) := by
    intro r
    have hnn : (0 : ℚ) ≤ (tm.betrayalsAfter r : ℚ) * tm.delta :=
      mul_nonneg (Nat.cast_nonneg _) hd
    nlinarith
  constructor
  · rw [observe_ok tm 1 (by norm_num)]
    have hgt : (1 : ℚ) > tm.trust := by rw [ht]; norm_num
    have halpha : tm.alphaFor 1 = tm.alpha_pos := by
      rw [TrustMeter.alphaFor, if_pos hgt]
    have hpos : 0 < tm.delta_t 1 1 := by
      rw [TrustMeter.delta_t, TrustMeter.factor, halpha, ht]
      exact mul_pos (mul_pos hap (hfac 1)) (by norm_num)
    show 1/2 < clamp01 (tm.trust + tm.delta_t 1 1)
    refine lt_clamp01 (by norm_num) ?_
    rw [ht]
    linarith
  · rw [observe_ok tm 1 (by norm_num)]
    have hngt : ¬((-1 : ℚ) > tm.trust) := by rw [ht]; norm_num
    have halpha : tm.alphaFor (-1) = tm.alpha_neg := by
      rw [TrustMeter.alphaFor, if_neg hngt]
    have hneg : tm.delta_t (-1) 1 < 0 := by
      rw [TrustMeter.delta_t, TrustMeter.factor, halpha, ht]
      exact mul_neg_of_pos_of_neg (mul_pos han (hfac (-1))) (by norm_num)
    show clamp01 (tm.trust + tm.delta_t (-1) 1) < 1/2
    refine clamp01_lt (by norm_num) ?_
    rw [ht]
    linarith

/-- Witness for C8 (amended) at the default meter. -/
theorem C8_directionality_amended_witness :
    1/2 < (c8good.observe 1 1).1.trust ∧ (c8good.observe (-1) 1).1.trust < 1/2 :=
  C8_directionality_amended c8good
    (by norm_num [c8good, TrustMeter.init]) (by norm_num [c8good, TrustMeter.init])
    (by norm_num [c8good, TrustMeter.init]) (by norm_num [c8good, TrustMeter.init])
    (by norm_num [c8good, TrustMeter.init]) (by norm_num [c8good, TrustMeter.init])

/-- C9 counterexample: on the unvalidated state with `trust = 2` (from
`TrustMeter(2)`), `observe(1.0, severity=0.0)` succeeds and increments the
betrayal counter, but the unconditional clamp changes trust from `2` to
`1`, so the call does not leave trust unchanged. -/
theorem C9_severity_counterexample :
    (1 : ℚ) ≠ 0 ∧ (1 : ℚ) < c9tm.trust ∧ (c9tm.observe 1 0).2 = none ∧
      (c9tm.observe 1 0).1.betrayals = c9tm.betrayals + 1 ∧
      (c9tm.observe 1 0).1.trust ≠ c9tm.trust := by
  norm_num [c9tm, TrustMeter.init, TrustMeter.observe, TrustMeter.betrayalsAfter,
    TrustMeter.delta_t, TrustMeter.factor, TrustMeter.alphaFor, clamp01]

/-- C9 (amended): `observe` does not validate severity.  For any state with
trust in `[0, 1]` and any non-zero reward strictly below the current trust,
`observe(reward, severity=0.0)` succeeds, increments the betrayal counter by
exactly `1` and leaves trust unchanged; a negative severity `-s` is likewise
accepted and negates the update term `delta_t`, so the trust moves by the
reversed-sign step, subject to clamping. -/
theorem C9_severity_amended :
    (∀ (tm : TrustMeter) (r : ℚ), r ≠ 0 → r < tm.trust → 0 ≤ tm.trust → tm.trust ≤ 1 →
      (tm.observe r 0).2 = none ∧ (tm.observe r 0).1.betrayals = tm.betrayals + 1 ∧
        (tm.observe r 0).1.trust = tm.trust) ∧
      (∀ (tm : TrustMeter) (r s : ℚ), r ≠ 0 →
        tm.delta_t r (-s) = -(tm.delta_t r s) ∧ (tm.observe r (-s)).2 = none ∧
          (tm.observe r (-s)).1.trust = clamp01 (tm.trust - tm.delta_t r s)) := by
  constructor
  · intro tm r hr hneg h0 h1
    rw [observe_ok tm 0 hr]
    refine ⟨rfl, ?_, ?_⟩
    · show tm.betrayalsAfter r = tm.betrayals + 1
      rw [TrustMeter.betrayalsAfter, if_pos hneg]
    · show clamp01 (tm.trust + tm.delta_t r 0) = tm.trust
      have hz : tm.delta_t r 0 = 0 := by
        rw [TrustMeter.delta_t, TrustMeter.factor]
        ring
      rw [hz, add_zero, clamp01_eq_self h0 h1]
  · intro tm r s hr
    have hflip : tm.delta_t r (-s) = -(tm.delta_t r s) := by
      rw [TrustMeter.delta_t, TrustMeter.delta_t, TrustMeter.factor, TrustMeter.factor]
      ring
    refine ⟨hflip, ?_, ?_⟩
    · rw [observe_ok tm (-s) hr]
    · rw [observe_ok tm (-s) hr]
      show clamp01 (tm.trust + tm.delta_t r (-s)) = clamp01 (tm.trust - tm.delta_t r s)
      rw [hflip, ← sub_eq_add_neg]

/-- Witness for C9 (amended) at the default meter with reward `-1`. -/
theorem C9_severity_amended_witness :
    ((c9tmGood.observe (-1) 0).2 = none ∧
      (c9tmGood.observe (-1) 0).1.betrayals = c9tmGood.betrayals + 1 ∧
      (c9tmGood.observe (-1) 0).1.trust = c9tmGood.trust) ∧
      (c9tmGood.delta_t (-1) (-1) = -(c9tmGood.delta_t (-1) 1) ∧
        (c9tmGood.observe (-1) (-1)).2 = none ∧
        (c9tmGood.observe (-1) (-1)).1.trust = clamp01 (c9tmGood.trust - c9tmGood.delta_t (-1) 1)) :=
  ⟨C9_severity_amended.1 c9tmGood (-1) (by norm_num)
      (by norm_num [c9tmGood, TrustMeter.init]) (by norm_num [c9tmGood, TrustMeter.init])
      (by norm_num [c9tmGood, TrustMeter.init]),
    C9_severity_amended.2 c9tmGood (-1) 1 (by norm_num)⟩

/-- C10: construction does not validate its parameters: for every `theta`
(also outside `[0, 1]`) the freshly constructed meter's `value()` is
exactly `theta`, unclamped, so the `[0, 1]` invariant can be violated
before the first update; and after any single successful `observe` call the
trust lies in `[0, 1]`, because clamping is applied unconditionally on
every update. -/
theorem C10_unvalidated_construction :
    (∀ theta alpha_pos alpha_neg delta : ℚ,
      (TrustMeter.init theta alpha_pos alpha_neg delta).trust = theta) ∧
      (∀ (tm : TrustMeter) (r s : ℚ) (tm1 : TrustMeter),
        tm.observe r s = (tm1, none) → 0 ≤ tm1.trust ∧ tm1.trust ≤ 1) := by
  refine ⟨fun _ _ _ _ => rfl, ?_⟩
  intro tm r s tm1 h
  rw [observe_elim h]
  exact ⟨clamp01_nonneg _, clamp01_le_one _⟩

/-- Witness for C10 at `theta = 2` and one `observe(1.0)` call. -/
theorem C10_unvalidated_construction_witness :
    (TrustMeter.init 2 (1/20) (1/2) (3/10)).trust = 2 ∧
      (0 ≤ ((TrustMeter.init 2 (1/20) (1/2) (3/10)).observe 1 1).1.trust ∧
        ((TrustMeter.init 2 (1/20) (1/2) (3/10)).observe 1 1).1.trust ≤ 1) :=
  ⟨C10_unvalidated_construction.1 2 (1/20) (1/2) (3/10),
    C10_unvalidated_construction.2 _ 1 1 _ (observe_ok _ 1 (by norm_num))⟩
